import Mathlib

/-!
# ZKAPAuthorizer: verification of spec claims against a shallow embedding

This file embeds the parts of the ZKAPAuthorizer repository needed to settle the
frozen claims: the client web resource for vouchers
(`src/_secureaccesstokenauthorizer/resource.py`), the Foolscap schema layer
(`src/_zkapauthorizer/foolscap.py`), and — where the deciding code is not part
of the provided sources — models built from the specification (the price
calculator, the recovery session state machine, the strict base64url decoder
from `_base64.py`, and the `share_sizes` implementation).

Python 2 semantics are modelled where the source is Python 2
(`resource.py` uses the `unicode` builtin): `dict.keys()` compares equal to a
list, and attribute errors on non-dict values propagate as uncaught exceptions.
-/

namespace ZKAP

/-- A Python value, covering everything the embedded code manipulates:
the results of `json.loads` plus byte strings (for Foolscap constraints). -/
inductive PyVal where
  | pyNone : PyVal
  | pyBool (b : Bool) : PyVal
  | pyInt (n : Int) : PyVal
  | pyStr (s : String) : PyVal
  | pyBytes (bs : List Nat) : PyVal
  | pyList (xs : List PyVal) : PyVal
  | pyDict (kvs : List (String × PyVal)) : PyVal
deriving Repr

/-- Association-list lookup, first match wins (Python dict access `d[k]`
on a dict modelled as its insertion-ordered item list). -/
def lookup? (kvs : List (String × PyVal)) (k : String) : Option PyVal :=
  (kvs.find? (fun kv => kv.1 == k)).map (fun kv => kv.2)

/-- A byte is a character of the urlsafe base64 alphabet:
`A`-`Z`, `a`-`z`, `0`-`9`, `-`, `_`. -/
def isB64UrlByte (c : Nat) : Bool :=
  (decide (65 ≤ c) && decide (c ≤ 90)) ||
  (decide (97 ≤ c) && decide (c ≤ 122)) ||
  (decide (48 ≤ c) && decide (c ≤ 57)) ||
  c == 45 || c == 95

/-- Modelled from the spec: `_secureaccesstokenauthorizer/_base64.py` (the
validating `urlsafe_b64decode` imported by `resource.py`) is not under `src/`.
The spec describes a voucher as a "44-character base64url string,
decoding-validated before acceptance".  This predicate holds iff the byte
string is a well-formed urlsafe-base64 encoding: its length is a multiple of
4, it carries at most two trailing `=` (61) padding bytes, and every byte
before the padding belongs to the urlsafe base64 alphabet. -/
def urlsafe_b64_decodable (bs : List Nat) : Bool :=
  let pad := (bs.reverse.takeWhile (fun c => c == 61)).length
  let body := (bs.reverse.dropWhile (fun c => c == 61)).reverse
  decide (bs.length % 4 = 0) && decide (pad ≤ 2) && body.all isB64UrlByte

/-- Embeds `prn.encode("ascii")` from Python: succeeds with the code-point bytes
iff every character is ASCII; raises (here: `none`) otherwise. -/
def asciiEncode? (s : String) : Option (List Nat) :=
  if s.data.all (fun c => decide (c.toNat ≤ 127)) then
    some (s.data.map Char.toNat)
  else
    none

/-- Embeds `is_syntactic_prn` (`resource.py:133`): true iff the candidate is
a unicode string, of length exactly 44, whose ASCII encoding
urlsafe-base64-decodes without error (both the `encode` and the decode run
inside a `try` whose `except` returns `False`). -/
def is_syntactic_prn (prn : PyVal) : Bool :=
  match prn with
  | .pyStr s =>
    if s.length ≠ 44 then
      false
    else
      match asciiEncode? s with
      | none => false
      | some bs => urlsafe_b64_decodable bs
  | _ => false

/-- Outcome of rendering an HTTP request in the embedded resource code.
`uncaughtError` marks a Python exception escaping the render method (the
framework then produces a server-fault response, not a 4xx). -/
inductive Response where
  | ok : Response
  | badRequest : Response
  | uncaughtError : Response
deriving DecidableEq, Repr

/-- Embeds `_VoucherCollection.render_PUT` (`resource.py:93`), as a function of the
outcome of `json.loads` on the request body (`none` = the body failed to
parse; that exception is caught and turned into Bad Request).  The second
component records the arguments of the calls made to the redemption
controller method `redeem`.  Python 2 semantics: `payload.keys() != [u"voucher"]`
compares a list against a list, and on a non-dict payload `payload.keys()`
raises `AttributeError` outside the `try` block, so the exception escapes. -/
def render_PUT (payload : Option PyVal) : Response × List PyVal :=
  match payload with
  | none => (.badRequest, [])
  | some (.pyDict kvs) =>
    if kvs.map Prod.fst = ["voucher"] then
      match lookup? kvs "voucher" with
      | some prn =>
        if is_syntactic_prn prn then (.ok, [prn]) else (.badRequest, [])
      | none => (.uncaughtError, [])
    else
      (.badRequest, [])
  | some _ => (.uncaughtError, [])

/-- The precondition of the claim, stated from the words of the spec: the parsed body is
a JSON object with exactly one property `voucher` whose value is a
syntactically valid voucher; returns that voucher when so. -/
def conformingVoucher (payload : Option PyVal) : Option PyVal :=
  match payload with
  | some (.pyDict kvs) =>
    if kvs.map Prod.fst = ["voucher"] then
      match lookup? kvs "voucher" with
      | some prn => if is_syntactic_prn prn then some prn else none
      | none => none
    else
      none
  | _ => none

/-- Bodies covered by the amended claim: the body failed to parse as JSON, or
it parsed to a JSON object (dict). -/
def parseFailedOrDict (payload : Option PyVal) : Bool :=
  match payload with
  | none => true
  | some (.pyDict _) => true
  | some _ => false

/-- Is a byte a UTF-8 continuation byte (`0x80 ≤ b < 0xC0`)? -/
def isUtf8Cont (b : Nat) : Bool :=
  decide (128 ≤ b) && decide (b < 192)

/-- UTF-8 decoding of a byte list to Unicode code points, fueled by the
remaining length, with the semantics of the Python 2.7 codec (the source is
Python 2): `none` models `UnicodeDecodeError`.  Per the CPython 2.7 decoder,
lead bytes `0x80`-`0xC1` and `0xF5`-`0xFF` are illegal, continuation bytes
must lie in `0x80`-`0xBF`, overlong forms are rejected (2-byte below U+0080
is unreachable for legal leads, 3-byte below U+0800 and 4-byte below U+10000
are errors), code points above U+10FFFF are errors, and — unlike Python 3 —
UTF-8-encoded surrogates (U+D800-U+DFFF) are accepted, which is why the
result is a code-point list rather than a Lean string. -/
def utf8DecodeFuel : Nat → List Nat → Option (List Nat)
  | _, [] => some []
  | 0, _ :: _ => none
  | fuel + 1, b :: rest =>
    if b < 128 then
      (utf8DecodeFuel fuel rest).map (fun cs => b :: cs)
    else if b < 194 then
      -- continuation byte in lead position, or overlong lead 0xC0/0xC1
      none
    else if b < 224 then
      match rest with
      | c1 :: rest2 =>
        if isUtf8Cont c1 then
          (utf8DecodeFuel fuel rest2).map
            (fun cs => ((b - 192) * 64 + (c1 - 128)) :: cs)
        else none
      | [] => none
    else if b < 240 then
      match rest with
      | c1 :: c2 :: rest3 =>
        if isUtf8Cont c1 && isUtf8Cont c2 then
          let cp := (b - 224) * 4096 + (c1 - 128) * 64 + (c2 - 128)
          if decide (cp < 2048) then
            none
          else
            (utf8DecodeFuel fuel rest3).map (fun cs => cp :: cs)
        else none
      | _ => none
    else if b < 245 then
      match rest with
      | c1 :: c2 :: c3 :: rest4 =>
        if isUtf8Cont c1 && isUtf8Cont c2 && isUtf8Cont c3 then
          let cp := (b - 240) * 262144 + (c1 - 128) * 4096 + (c2 - 128) * 64 + (c3 - 128)
          if decide (cp < 65536) || decide (1114111 < cp) then
            none
          else
            (utf8DecodeFuel fuel rest4).map (fun cs => cp :: cs)
        else none
      | _ => none
    else
      none

/-- Embeds `segment.decode("utf-8")` on a path segment, under the Python 2.7
codec: the decoded unicode string, as its list of code points. -/
def utf8Decode (bs : List Nat) : Option (List Nat) :=
  utf8DecodeFuel bs.length bs

/-- Outcome of `_VoucherCollection.getChild`: which child resource is handed
back to the framework for rendering.  `uncaughtError` marks a Python exception
escaping `getChild` itself. -/
inductive ChildResult where
  | badRequest : ChildResult
  | noResource : ChildResult
  | view (voucher : String) : ChildResult
  | uncaughtError : ChildResult
deriving DecidableEq, Repr

/-- Embeds `_VoucherCollection.getChild` (`resource.py:122`): decode the path segment
as UTF-8 (an undecodable segment raises `UnicodeDecodeError` uncaught), reject
non-vouchers with Bad Request, map a missing voucher (`store.get` raising
`KeyError`) to `NoResource` (Not Found), and otherwise return the voucher
view.  `stored` is the set of voucher numbers present in the store.

When every decoded code point is ASCII the decoded unicode string is
represented exactly as a Lean string and handed to `is_syntactic_prn` as in
the source.  When some code point is above U+007F (Python 2 can produce
surrogates here, which a Lean `Char` cannot carry), the source still reaches
`bad_request()`: in `is_syntactic_prn` either the length test fails or
`prn.encode("ascii")` raises `UnicodeEncodeError` inside the `try`, returning
`False` — so the embedding takes the Bad Request branch directly. -/
def getChild (stored : List String) (segment : List Nat) : ChildResult :=
  match utf8Decode segment with
  | none => .uncaughtError
  | some cps =>
    if cps.all (fun c => decide (c ≤ 127)) then
      let prn := String.mk (cps.map Char.ofNat)
      if is_syntactic_prn (.pyStr prn) then
        if stored.contains prn then .view prn else .noResource
      else
        .badRequest
    else
      .badRequest

/-- The predicate of claim C8, stated from the words of the spec: the decoded
path segment is a syntactically valid voucher; returns it when so.  A decoded
string containing any code point above U+007F is never a syntactically valid
voucher (its ASCII encoding raises, so `is_syntactic_prn` returns `False`). -/
def decodedVoucher? (cps : List Nat) : Option String :=
  if cps.all (fun c => decide (c ≤ 127)) then
    let prn := String.mk (cps.map Char.ofNat)
    if is_syntactic_prn (.pyStr prn) then some prn else none
  else
    none

/-! ## Foolscap schema layer (`src/_zkapauthorizer/foolscap.py`) -/

/-- A Foolscap argument constraint.  `byteString` is
`ByteStringConstraint(maxLength, minLength)`, `listOf` is
`ListOf(elem, maxLength)`, `anyC` is `Any()`, and `opaqueC` stands for an
externally defined constraint imported from `allmydata` (e.g. `StorageIndex`)
whose checking semantics this development does not need. -/
inductive Constraint where
  | byteString (maxLength minLength : Nat) : Constraint
  | listOf (elem : Constraint) (maxLength : Nat) : Constraint
  | anyC : Constraint
  | opaqueC (name : String) : Constraint
deriving DecidableEq, Repr

mutual

/-- The documented Foolscap acceptance check for a constraint against a value:
`ByteStringConstraint` accepts byte strings whose length lies within
`[minLength, maxLength]`; `ListOf` accepts lists of at most `maxLength`
elements each accepted by the element constraint; `Any` accepts everything.
`opaqueC` constraints are external to the repository and are never the
subject of a theorem here; their check is left permissive. -/
def checkObject : Constraint → PyVal → Bool
  | .byteString maxL minL, .pyBytes bs =>
    decide (minL ≤ bs.length) && decide (bs.length ≤ maxL)
  | .byteString _ _, _ => false
  | .listOf elemC maxL, .pyList xs =>
    decide (xs.length ≤ maxL) && checkList elemC xs
  | .listOf _ _, _ => false
  | .anyC, _ => true
  | .opaqueC _, _ => true

/-- Check every element of a list against one constraint. -/
def checkList : Constraint → List PyVal → Bool
  | _, [] => true
  | c, x :: xs => checkObject c x && checkList c xs

end

/-- Embeds `_MAXIMUM_PASSES_PER_CALL` (`foolscap.py:72`). -/
def _MAXIMUM_PASSES_PER_CALL : Nat := 2 ^ 20

/-- Embeds `_PASS_LENGTH` (`foolscap.py:77`). -/
def _PASS_LENGTH : Nat := 177

/-- Embeds `_Pass = ByteStringConstraint(maxLength=_PASS_LENGTH, minLength=_PASS_LENGTH)`
(`foolscap.py:82`). -/
def _Pass : Constraint := .byteString _PASS_LENGTH _PASS_LENGTH

/-- Embeds `_PassList = ListOf(_Pass, maxLength=_MAXIMUM_PASSES_PER_CALL)`
(`foolscap.py:83`). -/
def _PassList : Constraint := .listOf _Pass _MAXIMUM_PASSES_PER_CALL

/-- A Foolscap `RemoteMethodSchema`: the ordered argument-name list and the
argument-name → constraint dictionary (modelled as an insertion-ordered
association list, as Python dicts are). -/
structure RemoteMethodSchema where
  argumentNames : List String
  argConstraints : List (String × Constraint)
deriving DecidableEq, Repr

/-- Embeds `d[k] = v` on a Python dict modelled as an insertion-ordered association
list with unique keys: replace the value at an existing key in place,
else append the new binding at the end. -/
def setKey : List (String × Constraint) → String → Constraint →
    List (String × Constraint)
  | [], k, v => [(k, v)]
  | kv :: rest, k, v =>
    if kv.1 == k then (kv.1, v) :: rest else kv :: setKey rest k v

/-- Embeds `d.update(kwargs)` on a Python dict: apply each `(k, v)` of `kwargs` in
order. -/
def dictUpdate (d : List (String × Constraint)) :
    List (String × Constraint) → List (String × Constraint)
  | [] => d
  | (k, v) :: rest => dictUpdate (setKey d k v) rest

/-- First-match lookup in the constraint dictionary. -/
def lookupC (d : List (String × Constraint)) (k : String) : Option Constraint :=
  (d.find? (fun kv => kv.1 == k)).map (fun kv => kv.2)

/-- Embeds `add_arguments` (`foolscap.py:98`): build a dict from the constraints
of the schema, update it with `kwargs`, construct the new schema from the
result, and overwrite its `argumentNames` with the `kwargs` names followed by
the original names in their original order. -/
def add_arguments (schema : RemoteMethodSchema)
    (kwargs : List (String × Constraint)) : RemoteMethodSchema :=
  { argConstraints := dictUpdate schema.argConstraints kwargs,
    argumentNames := kwargs.map Prod.fst ++ schema.argumentNames }

/-- Embeds `add_passes` (`foolscap.py:86`): add the required `passes` argument,
constrained by `_PassList`, to a method schema. -/
def add_passes (schema : RemoteMethodSchema) : RemoteMethodSchema :=
  add_arguments schema [("passes", _PassList)]

/-- The method schemas of the underlying `RIStorageServer` interface (defined
in `allmydata.interfaces`, external to this repository), kept abstract. -/
structure RIStorageServerSchemas where
  get_version : RemoteMethodSchema
  allocate_buckets : RemoteMethodSchema
  add_lease : RemoteMethodSchema
  get_buckets : RemoteMethodSchema
  slot_readv : RemoteMethodSchema
  slot_testv_and_readv_and_writev : RemoteMethodSchema
  advise_corrupt_share : RemoteMethodSchema

/-- The method schemas of `RIPrivacyPassAuthorizedStorageServer`
(`foolscap.py:127`): the seven `RIStorageServer` methods plus the two new
query methods. -/
structure RIPrivacyPassSchemas where
  get_version : RemoteMethodSchema
  allocate_buckets : RemoteMethodSchema
  add_lease : RemoteMethodSchema
  get_buckets : RemoteMethodSchema
  share_sizes : RemoteMethodSchema
  stat_shares : RemoteMethodSchema
  slot_readv : RemoteMethodSchema
  slot_testv_and_readv_and_writev : RemoteMethodSchema
  advise_corrupt_share : RemoteMethodSchema

/-- The `StorageIndex` constraint imported from `allmydata.interfaces`. -/
def StorageIndexC : Constraint := .opaqueC "StorageIndex"

/-- Embeds `RIPrivacyPassAuthorizedStorageServer` (`foolscap.py:127`) as a function
of the underlying `RIStorageServer` schemas: `allocate_buckets`, `add_lease`
and `slot_testv_and_readv_and_writev` are wrapped with `add_passes`;
`get_version`, `get_buckets`, `slot_readv` and `advise_corrupt_share` are
taken over unchanged; `share_sizes` and `stat_shares` are new methods (the
`30` is the default `ListOf` maxLength of Foolscap). -/
def RIPrivacyPassAuthorizedStorageServer (base : RIStorageServerSchemas) :
    RIPrivacyPassSchemas :=
  { get_version := base.get_version,
    allocate_buckets := add_passes base.allocate_buckets,
    add_lease := add_passes base.add_lease,
    get_buckets := base.get_buckets,
    share_sizes :=
      { argumentNames := ["storage_index_or_slot", "sharenums"],
        argConstraints :=
          [("storage_index_or_slot", StorageIndexC), ("sharenums", .anyC)] },
    stat_shares :=
      { argumentNames := ["storage_indexes_or_slots"],
        argConstraints := [("storage_indexes_or_slots", .listOf StorageIndexC 30)] },
    slot_readv := base.slot_readv,
    slot_testv_and_readv_and_writev := add_passes base.slot_testv_and_readv_and_writev,
    advise_corrupt_share := base.advise_corrupt_share }

/-- Embeds `ShareStat` (`foolscap.py:32`): share metadata with attrs defaults
`size = 0` and `lease_expiration = 0` so that it can be instantiated with no
arguments, as `RemoteCopy` requires. -/
structure ShareStat where
  size : Nat := 0
  lease_expiration : Nat := 0
deriving DecidableEq, Repr

/-- Embeds `ShareStat()`: construction with no arguments takes both defaults. -/
def ShareStat.fromNoArguments : ShareStat := {}

/-- Modelled from the spec: the implementation behind the `share_sizes`
remote method is not under `src/` (only its interface declaration in
`foolscap.py:148` is).  Per the spec and the docstring of the method, the query
returns, for every requested share number, its size, "with 0-size for absent
shares — absence is not an error".  `stored` gives the size of a stored
share, `none` when the share has no stored state. -/
def share_sizes (stored : Nat → Option Nat) (sharenums : List Nat) :
    List (Nat × Nat) :=
  sharenums.map (fun sn => (sn, (stored sn).getD 0))

/-! ## Price calculator (modelled from the spec) -/

/-- Ceiling division on naturals, `ceil(a / b)`. -/
def ceilDiv (a b : Nat) : Nat := (a + b - 1) / b

/-- Modelled from the spec: the price calculator is not under `src/`.  The
spec: "`size_per_share` is derived from the object size and the
erasure-coding parameters `(shares_needed, shares_total)` — storage cost for
k-of-n encoding scales the raw size down by `shares_needed/shares_total`
before charging". -/
def size_per_share (shares_needed shares_total size : Nat) : Nat :=
  ceilDiv (size * shares_needed) shares_total

/-- Modelled from the spec: "For each size, the number of passes charged is
`ceil(size_per_share / pass_value)`". -/
def passes_for_size (pass_value shares_needed shares_total size : Nat) : Nat :=
  ceilDiv (size_per_share shares_needed shares_total size) pass_value

/-- Modelled from the spec: `calculate(sizes)` — "Total price is the sum over
all sizes; an empty size list costs 0."  Non-negative sizes are modelled as
`Nat` (the spec rejects negative sizes as a contract violation). -/
def calculate (pass_value shares_needed shares_total : Nat)
    (sizes : List Nat) : Nat :=
  (sizes.map (passes_for_size pass_value shares_needed shares_total)).sum

/-! ## Recovery session (modelled from the spec) -/

/-- A voucher row of the local database. -/
structure VoucherRow where
  number : String
  expected_tokens : Nat
deriving DecidableEq, Repr

/-- The local ledger+voucher database contents relevant to recovery. -/
structure LocalDb where
  vouchers : List VoucherRow
  tokens : List String
deriving DecidableEq, Repr

/-- A recovery stage, as streamed to observers. -/
inductive Stage where
  | started : Stage
  | downloading : Stage
  | importing : Stage
  | succeeded : Stage
  | import_failed : Stage
deriving DecidableEq, Repr

/-- A stage message `{stage, failure-reason}`. -/
structure StageMessage where
  stage : Stage
  failureReason : Option String
deriving DecidableEq, Repr

/-- The outcome of fetching the snapshot via the supplied read capability:
either a failure with details, or the downloaded replica, modelled by the
database state its statements replay to. -/
inductive DownloadOutcome where
  | failed (details : String) : DownloadOutcome
  | downloaded (replica : LocalDb) : DownloadOutcome
deriving DecidableEq, Repr

/-- Modelled from the spec: the recovery session state machine
(`RecoverProtocol`/`RecoverFactory`, exercised by
`tests/test_client_resource.py` `RecoverTests`) is not under `src/`.  Per the
spec: on session start, if the local database already contains any voucher or
token state, immediately emit `import_failed{reason="there is existing local
state"}` and terminate without touching the database; otherwise emit
`started`, then on download failure emit `import_failed{reason=details}`, and
on success replay the snapshot (stages `downloading`/`importing`) and emit
`succeeded`.  Returns the full ordered stage-message log of the session and
the resulting database. -/
def recoverSession (db : LocalDb) (dl : DownloadOutcome) :
    List StageMessage × LocalDb :=
  if db.vouchers.isEmpty && db.tokens.isEmpty then
    match dl with
    | .failed details =>
      ([⟨.started, none⟩, ⟨.import_failed, some details⟩], db)
    | .downloaded replica =>
      ([⟨.started, none⟩, ⟨.downloading, none⟩, ⟨.importing, none⟩,
        ⟨.succeeded, none⟩], replica)
  else
    ([⟨.import_failed, some "there is existing local state"⟩], db)

/-- Modelled from the spec: each recovery session keeps an append-only event
log of stage messages; "a joining observer replays the log from its start
rather than subscribing to a live-only stream".  An observer who joins after
`joinedAfter` stages have already fired receives those stages as a replay and
the remaining ones as live broadcasts. -/
def observerView (log : List StageMessage) (joinedAfter : Nat) :
    List StageMessage :=
  log.take joinedAfter ++ log.drop joinedAfter

/-- The scenario voucher of the spec (§8): `"A"*43 + "B"`, 44 characters of
the urlsafe base64 alphabet. -/
def goodVoucherStr : String := "AAAAAAAAAAAAAAAAAAAAAAAAAAAAAAAAAAAAAAAAAAAB"

/-- The UTF-8 (= ASCII) bytes of `goodVoucherStr`. -/
def goodVoucherBytes : List Nat := List.replicate 43 65 ++ [66]

/-! ## Theorems -/

/-- Looking up the key just set by `setKey` returns the new value. -/
theorem lookupC_setKey_self (d : List (String × Constraint)) (k : String)
    (v : Constraint) : lookupC (setKey d k v) k = some v := by
  induction d with
  | nil => simp [setKey, lookupC]
  | cons kv rest ih =>
    by_cases h : kv.1 = k
    · have hs : setKey (kv :: rest) k v = (kv.1, v) :: rest := by
        simp [setKey, h]
      rw [hs]
      simp [lookupC, List.find?, h]
    · have hb : (kv.1 == k) = false := beq_eq_false_iff_ne.mpr h
      have hs : setKey (kv :: rest) k v = kv :: setKey rest k v := by
        simp [setKey, hb]
      rw [hs]
      simpa [lookupC, List.find?, hb] using ih

/-- The update `setKey` leaves the lookup of every other key unchanged. -/
theorem lookupC_setKey_other (d : List (String × Constraint)) (k k' : String)
    (v : Constraint) (hne : k' ≠ k) :
    lookupC (setKey d k v) k' = lookupC d k' := by
  induction d with
  | nil =>
    have hb : (k == k') = false := beq_eq_false_iff_ne.mpr (fun e => hne e.symm)
    simp [setKey, lookupC, List.find?, hb]
  | cons kv rest ih =>
    by_cases h : kv.1 = k
    · have hs : setKey (kv :: rest) k v = (kv.1, v) :: rest := by
        simp [setKey, h]
      have hk' : (kv.1 == k') = false :=
        beq_eq_false_iff_ne.mpr (fun e => hne (e.symm.trans h))
      rw [hs]
      simp [lookupC, List.find?, hk']
    · have hb : (kv.1 == k) = false := beq_eq_false_iff_ne.mpr h
      have hs : setKey (kv :: rest) k v = kv :: setKey rest k v := by
        simp [setKey, hb]
      rw [hs]
      cases hkk' : (kv.1 == k') with
      | true => simp [lookupC, List.find?, hkk']
      | false => simpa [lookupC, List.find?, hkk'] using ih

/-- The update `dictUpdate` leaves the lookup of every key not updated unchanged. -/
theorem lookupC_dictUpdate_notin (d : List (String × Constraint))
    (kwargs : List (String × Constraint)) (k : String)
    (h : k ∉ kwargs.map Prod.fst) :
    lookupC (dictUpdate d kwargs) k = lookupC d k := by
  induction kwargs generalizing d with
  | nil => rfl
  | cons kv rest ih =>
    simp only [List.map_cons, List.mem_cons] at h
    push_neg at h
    simp only [dictUpdate]
    rw [ih (setKey d kv.1 kv.2) h.2]
    exact lookupC_setKey_other d kv.1 k kv.2 h.1

/-- Claim C2: for every list `S` of non-negative integer sizes,
`calculate(S)` equals the sum of `calculate([s])` over the elements `s` of
`S`, and `calculate` applied to the empty list equals `0`. -/
theorem calculate_additive (pv sn st : Nat) (sizes : List Nat) :
    calculate pv sn st [] = 0 ∧
    calculate pv sn st sizes =
      (sizes.map (fun s => calculate pv sn st [s])).sum := by
  refine ⟨rfl, ?_⟩
  simp [calculate]

/-- Claim C3: a recovery session started against a node whose local database
already contains at least one voucher emits exactly the one stage message
`import_failed{failure-reason = "there is existing local state"}` (so nothing
after it) and leaves the local database unchanged. -/
theorem recoverSession_existing_state (db : LocalDb) (dl : DownloadOutcome)
    (h : db.vouchers ≠ []) :
    recoverSession db dl =
      ([⟨.import_failed, some "there is existing local state"⟩], db) := by
  obtain ⟨vs, ts⟩ := db
  cases vs with
  | nil => exact absurd rfl h
  | cons a l => rfl

/-- Witness for claim C3 at a concrete database containing one voucher. -/
theorem recoverSession_existing_state_witness :
    recoverSession ⟨[⟨"A", 1⟩], []⟩ (.failed "x") =
      ([⟨.import_failed, some "there is existing local state"⟩],
        ⟨[⟨"A", 1⟩], []⟩) :=
  recoverSession_existing_state ⟨[⟨"A", 1⟩], []⟩ (.failed "x") (by decide)

/-- Claim C4: any two observers of the same recovery session, whatever the
number of stages already fired when each joins, receive the identical ordered
sequence of stage messages (an observer replays the stages fired before it
joined and then receives the rest live). -/
theorem recovery_observers_identical (db : LocalDb) (dl : DownloadOutcome)
    (j1 j2 : Nat) :
    observerView (recoverSession db dl).1 j1 =
      observerView (recoverSession db dl).1 j2 := by
  simp [observerView]

/-- Claim C5: in `RIPrivacyPassAuthorizedStorageServer`, exactly the three
mutating operations `allocate_buckets`, `add_lease` and
`slot_testv_and_readv_and_writev` are wrapped by `add_passes` — which adds
the required leading `passes` argument constrained by `_PassList` — while
`get_version`, `get_buckets`, `slot_readv` and `advise_corrupt_share` keep
the underlying `RIStorageServer` method schema unchanged. -/
theorem ripp_gated_methods (base : RIStorageServerSchemas)
    (s : RemoteMethodSchema) :
    (RIPrivacyPassAuthorizedStorageServer base).allocate_buckets =
      add_passes base.allocate_buckets ∧
    (RIPrivacyPassAuthorizedStorageServer base).add_lease =
      add_passes base.add_lease ∧
    (RIPrivacyPassAuthorizedStorageServer base).slot_testv_and_readv_and_writev =
      add_passes base.slot_testv_and_readv_and_writev ∧
    (RIPrivacyPassAuthorizedStorageServer base).get_version = base.get_version ∧
    (RIPrivacyPassAuthorizedStorageServer base).get_buckets = base.get_buckets ∧
    (RIPrivacyPassAuthorizedStorageServer base).slot_readv = base.slot_readv ∧
    (RIPrivacyPassAuthorizedStorageServer base).advise_corrupt_share =
      base.advise_corrupt_share ∧
    (add_passes s).argumentNames = "passes" :: s.argumentNames ∧
    lookupC (add_passes s).argConstraints "passes" = some _PassList := by
  refine ⟨rfl, rfl, rfl, rfl, rfl, rfl, rfl, rfl, ?_⟩
  exact lookupC_setKey_self s.argConstraints "passes" _PassList

/-- Claim C10: the function `add_arguments` returns a schema whose `argumentNames` are
exactly the `kwargs` names in their given order followed by the original
original `argumentNames` of the schema in their original order, and whose
constraint for each argument name not overridden by `kwargs` is the original
constraint of the schema for that name. -/
theorem add_arguments_spec (schema : RemoteMethodSchema)
    (kwargs : List (String × Constraint)) (name : String)
    (h : name ∉ kwargs.map Prod.fst) :
    (add_arguments schema kwargs).argumentNames =
      kwargs.map Prod.fst ++ schema.argumentNames ∧
    lookupC (add_arguments schema kwargs).argConstraints name =
      lookupC schema.argConstraints name :=
  ⟨rfl, lookupC_dictUpdate_notin schema.argConstraints kwargs name h⟩

/-- Witness for claim C10 at a concrete schema and kwargs list. -/
theorem add_arguments_spec_witness :
    (add_arguments ⟨["storage_index"], [("storage_index", StorageIndexC)]⟩
        [("passes", _PassList)]).argumentNames = ["passes", "storage_index"] ∧
    lookupC (add_arguments ⟨["storage_index"], [("storage_index", StorageIndexC)]⟩
        [("passes", _PassList)]).argConstraints "storage_index" =
      some StorageIndexC := by
  have h := add_arguments_spec
    ⟨["storage_index"], [("storage_index", StorageIndexC)]⟩
    [("passes", _PassList)] "storage_index" (by decide)
  exact ⟨h.1, h.2.trans (by decide)⟩

/-- Witness for claim C2 at a concrete pass value and size list. -/
theorem calculate_additive_witness :
    calculate 5 1 1 [] = 0 ∧
    calculate 5 1 1 [5, 1] =
      ([5, 1].map (fun s => calculate 5 1 1 [s])).sum :=
  calculate_additive 5 1 1 [5, 1]

/-- Witness for claim C4 at a concrete session and two join points. -/
theorem recovery_observers_identical_witness :
    observerView (recoverSession ⟨[], []⟩ (.failed "y")).1 0 =
      observerView (recoverSession ⟨[], []⟩ (.failed "y")).1 1 :=
  recovery_observers_identical ⟨[], []⟩ (.failed "y") 0 1

/-- A concrete stand-in for the external `RIStorageServer` schemas, used by
the witness of claim C5. -/
def baseSchemasW : RIStorageServerSchemas :=
  { get_version := ⟨[], []⟩,
    allocate_buckets := ⟨["storage_index"], [("storage_index", StorageIndexC)]⟩,
    add_lease := ⟨["storage_index"], [("storage_index", StorageIndexC)]⟩,
    get_buckets := ⟨["storage_index"], [("storage_index", StorageIndexC)]⟩,
    slot_readv := ⟨["storage_index"], [("storage_index", StorageIndexC)]⟩,
    slot_testv_and_readv_and_writev :=
      ⟨["storage_index"], [("storage_index", StorageIndexC)]⟩,
    advise_corrupt_share := ⟨["storage_index"], [("storage_index", StorageIndexC)]⟩ }

/-- Witness for claim C5 at a concrete base interface and schema. -/
theorem ripp_gated_methods_witness :
    lookupC (add_passes (baseSchemasW.allocate_buckets)).argConstraints "passes" =
      some _PassList :=
  (ripp_gated_methods baseSchemasW baseSchemasW.allocate_buckets).2.2.2.2.2.2.2.2

/-- Claim C9: a `ShareStat` constructed with no arguments has `size = 0` and
`lease_expiration = 0`, and the batch share-size query reports size `0` for a
requested share with no stored state instead of failing or omitting its
share number. -/
theorem shareStat_defaults_and_absent_zero (stored : Nat → Option Nat)
    (sharenums : List Nat) (sn : Nat) (hmem : sn ∈ sharenums)
    (habs : stored sn = none) :
    ShareStat.fromNoArguments.size = 0 ∧
    ShareStat.fromNoArguments.lease_expiration = 0 ∧
    (sn, 0) ∈ share_sizes stored sharenums := by
  refine ⟨rfl, rfl, ?_⟩
  exact List.mem_map.mpr ⟨sn, hmem, by simp [habs]⟩

/-- Witness for claim C9 at a concrete query over an empty store. -/
theorem shareStat_defaults_and_absent_zero_witness :
    ShareStat.fromNoArguments.size = 0 ∧
    ShareStat.fromNoArguments.lease_expiration = 0 ∧
    (7, 0) ∈ share_sizes (fun _ => none) [7] :=
  shareStat_defaults_and_absent_zero (fun _ => none) [7] 7 (by decide) rfl

/-- A single pass is accepted by `_Pass` iff it is a byte string of length
exactly 177. -/
theorem checkObject_pass_iff (x : PyVal) :
    checkObject _Pass x = true ↔
      ∃ bs, x = PyVal.pyBytes bs ∧ bs.length = 177 := by
  cases x <;> simp [checkObject, _Pass, _PASS_LENGTH]
  omega

/-- A list is elementwise accepted by `_Pass` iff every element is a byte
string of length exactly 177. -/
theorem checkList_pass_iff (xs : List PyVal) :
    checkList _Pass xs = true ↔
      ∀ x ∈ xs, ∃ bs, x = PyVal.pyBytes bs ∧ bs.length = 177 := by
  induction xs with
  | nil => simp [checkList]
  | cons x rest ih =>
    simp [checkList, Bool.and_eq_true, checkObject_pass_iff x, ih]

/-- Claim C6: the `_PassList` constraint attached to every gated operation
accepts a value iff it is a list of at most `2 ^ 20` elements, each a byte
string of length exactly 177; longer lists and passes of any other length
are rejected by the constraint check (which Foolscap runs before the
operation). -/
theorem passList_accepts_iff (v : PyVal) :
    checkObject _PassList v = true ↔
      ∃ xs, v = PyVal.pyList xs ∧ xs.length ≤ 2 ^ 20 ∧
        ∀ x ∈ xs, ∃ bs, x = PyVal.pyBytes bs ∧ bs.length = 177 := by
  cases v <;>
    simp [checkObject, _PassList, _MAXIMUM_PASSES_PER_CALL, checkList_pass_iff]

set_option maxRecDepth 4096 in
/-- Witness for claim C6 at a concrete accepted one-pass list. -/
theorem passList_accepts_iff_witness :
    ∃ xs, PyVal.pyList [PyVal.pyBytes (List.replicate 177 0)] = PyVal.pyList xs ∧
      xs.length ≤ 2 ^ 20 ∧
      ∀ x ∈ xs, ∃ bs, x = PyVal.pyBytes bs ∧ bs.length = 177 :=
  (passList_accepts_iff (PyVal.pyList [PyVal.pyBytes (List.replicate 177 0)])).mp
    (by decide)

/-- Claim C7: `is_syntactic_prn prn` returns `True` iff `prn` is a unicode
text string of length exactly 44 whose ASCII encoding urlsafe-base64-decodes
without error; every other input — non-strings and strings of any other
length included — yields `False` (the function is total: the only raising
operations in the source run inside its `try` block). -/
theorem is_syntactic_prn_iff (p : PyVal) :
    is_syntactic_prn p = true ↔
      ∃ s bs, p = PyVal.pyStr s ∧ s.length = 44 ∧ asciiEncode? s = some bs ∧
        urlsafe_b64_decodable bs = true := by
  cases p <;> simp [is_syntactic_prn]
  rename_i s
  by_cases h44 : s.length = 44
  · cases hasc : asciiEncode? s with
    | none => simp [h44, hasc]
    | some bs => simp [h44, hasc]
  · simp [h44]

/-- Witness for claim C7 at the concrete scenario voucher of the spec. -/
theorem is_syntactic_prn_iff_witness :
    ∃ s bs, PyVal.pyStr goodVoucherStr = PyVal.pyStr s ∧ s.length = 44 ∧
      asciiEncode? s = some bs ∧ urlsafe_b64_decodable bs = true :=
  (is_syntactic_prn_iff (PyVal.pyStr goodVoucherStr)).mp (by decide)

/-- A dict whose key list is exactly `["voucher"]` is a singleton dict. -/
theorem keys_singleton_voucher (kvs : List (String × PyVal))
    (h : kvs.map Prod.fst = ["voucher"]) :
    ∃ v, kvs = [("voucher", v)] := by
  cases kvs with
  | nil => simp at h
  | cons kv rest =>
    cases rest with
    | nil =>
      obtain ⟨k, v⟩ := kv
      simp at h
      exact ⟨v, by simp [h]⟩
    | cons kv2 rest2 => simp at h

/-- Counterexample to claim C1 as stated: the body `17` is valid JSON but not
an object with the single property `voucher`, yet `render_PUT` does not
return Bad Request — `payload.keys()` raises an uncaught `AttributeError`
(the `keys` call sits outside the `try` block), producing a server fault. -/
theorem render_PUT_nonobject_counterexample :
    conformingVoucher (some (.pyInt 17)) = none ∧
    (render_PUT (some (.pyInt 17))).1 = Response.uncaughtError ∧
    Response.uncaughtError ≠ Response.badRequest :=
  ⟨rfl, rfl, by decide⟩

/-- Claim C1 (amended): for every PUT body that either fails to parse as JSON
or parses to a JSON object, `render_PUT` returns Bad Request without invoking
`redeem` unless the body is an object with exactly the one property `voucher`
holding a syntactically valid voucher, in which case `redeem` is invoked with
that voucher and an empty-body success response is returned.  (Bodies that
parse to non-object JSON instead raise an uncaught error — see the
counterexample.) -/
theorem render_PUT_amended (payload : Option PyVal)
    (h : parseFailedOrDict payload = true) :
    render_PUT payload =
      match conformingVoucher payload with
      | some prn => (Response.ok, [prn])
      | none => (Response.badRequest, []) := by
  match payload with
  | none => rfl
  | some (.pyDict kvs) =>
    by_cases hk : kvs.map Prod.fst = ["voucher"]
    · obtain ⟨v, rfl⟩ := keys_singleton_voucher kvs hk
      by_cases hv : is_syntactic_prn v = true
      · simp [render_PUT, conformingVoucher, lookup?, List.find?, hv]
      · simp [render_PUT, conformingVoucher, lookup?, List.find?, hv]
    · unfold render_PUT conformingVoucher
      simp [hk]
  | some (.pyNone) => simp [parseFailedOrDict] at h
  | some (.pyBool b) => simp [parseFailedOrDict] at h
  | some (.pyInt n) => simp [parseFailedOrDict] at h
  | some (.pyStr s) => simp [parseFailedOrDict] at h
  | some (.pyBytes bs) => simp [parseFailedOrDict] at h
  | some (.pyList xs) => simp [parseFailedOrDict] at h

/-- Witness for claim C1 (amended) at the concrete conforming body
`{"voucher": "A"*43 + "B"}`. -/
theorem render_PUT_amended_witness :
    render_PUT (some (.pyDict [("voucher", .pyStr goodVoucherStr)])) =
      (Response.ok, [.pyStr goodVoucherStr]) := by
  have h := render_PUT_amended
    (some (.pyDict [("voucher", .pyStr goodVoucherStr)])) (by decide)
  exact h.trans (by rfl)

/-- Counterexample to claim C8 as stated: the path segment `0xFF` is not a
syntactically valid voucher, yet `getChild` does not return Bad Request —
`segment.decode("utf-8")` raises an uncaught `UnicodeDecodeError`, producing
a server fault. -/
theorem getChild_nonutf8_counterexample :
    getChild [] [255] = ChildResult.uncaughtError ∧
    ChildResult.uncaughtError ≠ ChildResult.badRequest :=
  ⟨rfl, by decide⟩

/-- Claim C8 (amended): for every child path segment whose UTF-8 decoding
succeeds under the Python 2 codec (which also accepts encoded surrogates), a
GET of that child of the voucher collection yields Not Found when the segment
is a syntactically valid voucher absent from the store, Bad Request when it
is not a syntactically valid voucher, and in neither case a server fault.
(Only segments whose decoding fails instead raise an uncaught error — see the
counterexample.) -/
theorem getChild_amended (stored : List String) (segment : List Nat)
    (cps : List Nat) (h : utf8Decode segment = some cps) :
    (∀ prn, decodedVoucher? cps = some prn → stored.contains prn = false →
      getChild stored segment = ChildResult.noResource) ∧
    (decodedVoucher? cps = none →
      getChild stored segment = ChildResult.badRequest) ∧
    getChild stored segment ≠ ChildResult.uncaughtError := by
  unfold getChild decodedVoucher?
  rw [h]
  by_cases ha : cps.all (fun c => decide (c ≤ 127)) = true
  · simp only [ha, if_true]
    by_cases hs : is_syntactic_prn (.pyStr (String.mk (cps.map Char.ofNat))) = true
    · simp only [hs, if_true]
      refine ⟨?_, ?_, ?_⟩
      · intro prn hp hc
        obtain rfl := Option.some.inj hp
        simp
        simpa using hc
      · intro hp
        exact absurd hp (by simp)
      · by_cases hm : String.mk (cps.map Char.ofNat) ∈ stored <;> simp [hm]
    · simp only [Bool.not_eq_true] at hs
      simp [hs]
  · simp only [Bool.not_eq_true] at ha
    simp [ha]

/-- Witness for claim C8 (amended) at the concrete valid voucher segment
`"A"*43 + "B"` over an empty store (all-ASCII, so the code points equal the
bytes). -/
theorem getChild_amended_witness :
    utf8Decode goodVoucherBytes = some goodVoucherBytes ∧
    getChild [] goodVoucherBytes = ChildResult.noResource := by
  have h := getChild_amended [] goodVoucherBytes goodVoucherBytes (by decide)
  exact ⟨by decide, h.1 goodVoucherStr (by decide) (by decide)⟩

end ZKAP
